import Mathlib

/-!
Verification of the marker ingestion and denormalization pipeline of
`uug-ai/markers` (`pkg/markers/main.go` and `pkg/markers/mongodb.go`).

The pipeline is embedded shallowly:
* pure computations (validation, duration, dedup, document construction) are
  Lean functions translated line by line from the Go source;
* the MongoDB store is an oracle `exec : StoreOp → Bool` deciding whether each
  issued write succeeds, and every run returns the ordered list of issued
  write operations (its trace) together with the returned marker and error;
* `time.Now().Unix()` and `primitive.NewObjectID()` are injected parameters
  `now : Int` and `freshId : Nat` (0 stands for the zero `ObjectID`).
-/

/-- A tag attached to a marker (`models.Tag`, external `uug-ai/models` repo;
only the name takes part in the pipeline, per the spec data model). -/
structure Tag where
  name : String
  deriving Repr, DecidableEq

/-- An event attached to a marker: a name plus its own time range
(`models.Event`; per the spec data model). -/
structure Event where
  name : String
  startTimestamp : Int
  endTimestamp : Int
  deriving Repr, DecidableEq

/-- A category attached to a marker (`models.Category`). -/
structure Category where
  name : String
  deriving Repr, DecidableEq

/-- Modelled from the spec: the `models.Marker` struct lives in the external
`uug-ai/models` repository, not under `src/`. Fields follow the spec data
model: identity (ObjectID, here `Nat`, `0` = zero value), required name,
integer start/end timestamps (seconds), derived duration, organisation id,
device id, group id, and the three ordered label lists. -/
structure Marker where
  id : Nat
  name : String
  startTimestamp : Int
  endTimestamp : Int
  duration : Int
  organisationId : String
  deviceId : String
  groupId : String
  tags : List Tag
  events : List Event
  categories : List Category
  deriving Repr, DecidableEq

/-- The zero value `models.Marker{}` returned by the Go code on failure. -/
def zeroMarker : Marker :=
  { id := 0, name := "", startTimestamp := 0, endTimestamp := 0, duration := 0
    organisationId := "", deviceId := "", groupId := ""
    tags := [], events := [], categories := [] }

/-- The four option-catalog kinds (marker-name, tag, event, category),
each mapping to its own MongoDB collection. -/
inductive OptKind where
  | markerName
  | tag
  | event
  | category
  deriving Repr, DecidableEq

/-- The three range-record kinds. -/
inductive RangeKind where
  | markerName
  | tag
  | event
  deriving Repr, DecidableEq

/-- One catalog upsert (`mongo.NewUpdateOneModel` with `SetUpsert(true)`),
as built in `AddMarkerToMongodb`: filter `{value, organisationId}`,
`$setOnInsert {value, text, organisationId, createdAt}`, `$set {updatedAt}`,
and — for the marker-name kind only — `$addToSet {categories: {$each: l}}`
(`categoriesEach = none` models the absence of the `$addToSet` clause). -/
structure OptUpsert where
  filterValue : String
  filterOrg : String
  value : String
  text : String
  organisationId : String
  createdAt : Int
  updatedAt : Int
  categoriesEach : Option (List String)
  deriving Repr, DecidableEq

/-- One range document as inserted by `InsertMany`. `updatedAt = none` models
the absence of an `updatedAt` key (the marker and tag range documents have no
such key; the event range documents do, see mongodb.go line 193). -/
structure RangeDoc where
  value : String
  text : String
  organisationId : String
  startTs : Int
  endTs : Int
  deviceId : String
  groupId : String
  createdAt : Int
  updatedAt : Option Int
  deriving Repr, DecidableEq

/-- The conditional media update issued by the media-linking loop:
`UpdateOne` with filter `{_id: mediaObjectId, startTimestamp: {$lte: s},
endTimestamp: {$gte: s}}` where `s = marker.StartTimestamp`, and update
`$addToSet` of the three name lists (a list left empty models the
corresponding key being absent from the update document). -/
structure MediaUpdate where
  mediaObjectId : String
  markerStart : Int
  markerNames : List String
  tagNames : List String
  eventNames : List String
  deriving Repr, DecidableEq

/-- A store write operation issued by the pipeline, in issue order. -/
inductive StoreOp where
  | insertMarker (m : Marker)
  | bulkUpsert (kind : OptKind) (upserts : List OptUpsert)
  | insertRanges (kind : RangeKind) (docs : List RangeDoc)
  | updateMedia (u : MediaUpdate)
  deriving Repr, DecidableEq

/-- The error taxonomy of the pipeline: validation failure (`errors.New` in
`Create`), a storage failure wrapping the failing stage's message
(`fmt.Errorf("...: %w", err)`), and a malformed media identifier
(`invalid mediaId format`). -/
inductive MErr where
  | validation
  | storage (stage : String)
  | invalidReference (mediaId : String)
  deriving Repr, DecidableEq

/-- The observable outcome of a run: the returned marker, the returned error
(`none` = `nil`), and the ordered trace of issued store writes. -/
structure RunResult where
  marker : Marker
  error : Option MErr
  trace : List StoreOp
  deriving Repr, DecidableEq

/-! ## Pure document construction (mongodb.go lines 66–220) -/

/-- `categoryNamesList` built for the marker-option upsert
(mongodb.go lines 89–94): every non-empty category name, in order,
occurrences kept. -/
def categoryNamesList (m : Marker) : List String :=
  (m.categories.map Category.name).filter (fun n => n ≠ "")

/-- The common upsert shape (mongodb.go lines 95–111 and its three clones):
filter by `(value, organisationId)`, `$setOnInsert` of value/text/org/createdAt,
`$set` of updatedAt. -/
def mkOptUpsert (n org : String) (now : Int) (cats : Option (List String)) :
    OptUpsert :=
  { filterValue := n, filterOrg := org, value := n, text := n
    organisationId := org, createdAt := now, updatedAt := now
    categoriesEach := cats }

/-- The Go loops deduplicate via a `map[string]struct{}` seen-set: an upsert
is appended only for the first occurrence of each non-empty name. `seen`
carries the names already in the set. -/
def buildOptUpserts (org : String) (now : Int) :
    List String → List String → List OptUpsert
  | _, [] => []
  | seen, n :: rest =>
    if n = "" then buildOptUpserts org now seen rest
    else if n ∈ seen then buildOptUpserts org now seen rest
    else mkOptUpsert n org now none :: buildOptUpserts org now (n :: seen) rest

/-- Marker-option upserts (mongodb.go lines 85–113): at most one upsert, for
the marker's own name, carrying the `$addToSet categories` clause. -/
def markerOptUpserts (m : Marker) (now : Int) : List OptUpsert :=
  if m.name = "" then []
  else [mkOptUpsert m.name m.organisationId now (some (categoryNamesList m))]

/-- Tag-option upserts (mongodb.go lines 126–148). -/
def tagOptUpserts (m : Marker) (now : Int) : List OptUpsert :=
  buildOptUpserts m.organisationId now [] (m.tags.map Tag.name)

/-- Event-option upserts (mongodb.go lines 161–183). -/
def eventOptUpserts (m : Marker) (now : Int) : List OptUpsert :=
  buildOptUpserts m.organisationId now [] (m.events.map Event.name)

/-- Category-option upserts (mongodb.go lines 197–220). -/
def categoryOptUpserts (m : Marker) (now : Int) : List OptUpsert :=
  buildOptUpserts m.organisationId now [] (m.categories.map Category.name)

/-- Marker range documents (mongodb.go lines 114–123): one document, using the
parent marker's start/end, appended whenever the name is non-empty. -/
def markerRangeDocs (m : Marker) (now : Int) : List RangeDoc :=
  if m.name = "" then []
  else [{ value := m.name, text := m.name, organisationId := m.organisationId
          startTs := m.startTimestamp, endTs := m.endTimestamp
          deviceId := m.deviceId, groupId := m.groupId
          createdAt := now, updatedAt := none }]

/-- Tag range documents (mongodb.go lines 149–158): one per non-empty tag
occurrence (appended outside the dedup guard), parent marker's start/end. -/
def tagRangeDocs (m : Marker) (now : Int) : List RangeDoc :=
  m.tags.foldl
    (fun acc t =>
      if t.name = "" then acc
      else acc ++ [{ value := t.name, text := t.name
                     organisationId := m.organisationId
                     startTs := m.startTimestamp, endTs := m.endTimestamp
                     deviceId := m.deviceId, groupId := m.groupId
                     createdAt := now, updatedAt := none }]) []

/-- Event range documents (mongodb.go lines 184–194): one per non-empty event
occurrence, the event's own start/end, and — unlike the marker and tag
documents — an extra `updatedAt` key. -/
def eventRangeDocs (m : Marker) (now : Int) : List RangeDoc :=
  m.events.foldl
    (fun acc e =>
      if e.name = "" then acc
      else acc ++ [{ value := e.name, text := e.name
                     organisationId := m.organisationId
                     startTs := e.startTimestamp, endTs := e.endTimestamp
                     deviceId := m.deviceId, groupId := m.groupId
                     createdAt := now, updatedAt := some now }]) []

/-! ## Media-linking loop documents (mongodb.go lines 289–319) -/

/-- `markerNames` collected per media id (lines 290–293). -/
def mediaMarkerNames (m : Marker) : List String :=
  if m.name = "" then [] else [m.name]

/-- `tagNames` collected per media id (lines 295–300): every non-empty tag
name, occurrences kept (no dedup in this loop). -/
def mediaTagNames (m : Marker) : List String :=
  m.tags.foldl (fun acc t => if t.name = "" then acc else acc ++ [t.name]) []

/-- `eventNames` collected per media id (lines 302–307). -/
def mediaEventNames (m : Marker) : List String :=
  m.events.foldl
    (fun acc e => if e.name = "" then acc else acc ++ [e.name]) []

/-- Modelled from the spec: `primitive.ObjectIDFromHex` (the MongoDB driver,
not in `src/`) accepts exactly 24-character hexadecimal strings — "parse the
identifier into the store's native id format". -/
def isHexChar (c : Char) : Bool :=
  c.isDigit || ('a' ≤ c && c ≤ 'f') || ('A' ≤ c && c ≤ 'F')

/-- Modelled from the spec: validity of a media identifier under
`primitive.ObjectIDFromHex`. -/
def isValidObjectIdHex (s : String) : Bool :=
  s.length = 24 && s.toList.all isHexChar

/-- The `UpdateOne` built for one media id (lines 309–328). The parsed
ObjectID is represented by its hex spelling; no claim compares two distinct
spellings of one id, so case normalization is not modelled. -/
def mkMediaUpdate (m : Marker) (mediaId : String) : MediaUpdate :=
  { mediaObjectId := mediaId, markerStart := m.startTimestamp
    markerNames := mediaMarkerNames m, tagNames := mediaTagNames m
    eventNames := mediaEventNames m }

/-- `len(updateDoc) > 0` fails exactly when all three name lists are empty
(lines 310–321): then no update is attempted for this media id. -/
def MediaUpdate.namesEmpty (u : MediaUpdate) : Bool :=
  u.markerNames.isEmpty && u.tagNames.isEmpty && u.eventNames.isEmpty

/-! ## The staged conditional writes (mongodb.go lines 222–276) -/

/-- One guarded batch write: issued only when its payload is non-empty, with
the `fmt.Errorf` stage message used on failure. -/
def guardedOp (nonEmpty : Prop) [Decidable nonEmpty] (op : StoreOp)
    (msg : String) : List (StoreOp × String) :=
  if nonEmpty then [(op, msg)] else []

/-- The seven conditional batch writes of `AddMarkerToMongodb`, in source
order (lines 222–276): marker options, marker ranges, tag options, tag
ranges, event options, event ranges, category options. -/
def stageOps (m : Marker) (now : Int) : List (StoreOp × String) :=
  guardedOp (markerOptUpserts m now ≠ [])
    (StoreOp.bulkUpsert OptKind.markerName (markerOptUpserts m now))
    "failed to upsert marker options"
  ++ guardedOp (markerRangeDocs m now ≠ [])
    (StoreOp.insertRanges RangeKind.markerName (markerRangeDocs m now))
    "failed to insert marker ranges"
  ++ guardedOp (tagOptUpserts m now ≠ [])
    (StoreOp.bulkUpsert OptKind.tag (tagOptUpserts m now))
    "failed to upsert tag options"
  ++ guardedOp (tagRangeDocs m now ≠ [])
    (StoreOp.insertRanges RangeKind.tag (tagRangeDocs m now))
    "failed to insert tag ranges"
  ++ guardedOp (eventOptUpserts m now ≠ [])
    (StoreOp.bulkUpsert OptKind.event (eventOptUpserts m now))
    "failed to upsert event options"
  ++ guardedOp (eventRangeDocs m now ≠ [])
    (StoreOp.insertRanges RangeKind.event (eventRangeDocs m now))
    "failed to insert event ranges"
  ++ guardedOp (categoryOptUpserts m now ≠ [])
    (StoreOp.bulkUpsert OptKind.category (categoryOptUpserts m now))
    "failed to upsert category options"

/-- Run the guarded writes in order against the store oracle: each issued
write joins the trace; the first failure returns immediately with the marker
and the wrapped stage message, later writes are not issued. -/
def runOps (exec : StoreOp → Bool) (m : Marker) (acc : List StoreOp) :
    List (StoreOp × String) → RunResult
  | [] => { marker := m, error := none, trace := acc }
  | (op, msg) :: rest =>
    if exec op then runOps exec m (acc ++ [op]) rest
    else { marker := m, error := some (MErr.storage msg), trace := acc ++ [op] }

/-- The media-linking loop (mongodb.go lines 279–334): empty ids are skipped;
a malformed id aborts the whole call with `invalid mediaId format` (later ids
are not attempted); when all three name lists are empty no update is
attempted; otherwise the single conditional `$addToSet` update is issued. -/
def processMediaIds (exec : StoreOp → Bool) (m : Marker)
    (acc : List StoreOp) : List String → RunResult
  | [] => { marker := m, error := none, trace := acc }
  | mediaId :: rest =>
    if mediaId = "" then processMediaIds exec m acc rest
    else if isValidObjectIdHex mediaId then
      let u := mkMediaUpdate m mediaId
      if u.namesEmpty then processMediaIds exec m acc rest
      else
        if exec (StoreOp.updateMedia u) then
          processMediaIds exec m (acc ++ [StoreOp.updateMedia u]) rest
        else
          { marker := m
            error := some (MErr.storage "failed to update media with marker data")
            trace := acc ++ [StoreOp.updateMedia u] }
    else
      { marker := m, error := some (MErr.invalidReference mediaId), trace := acc }

/-- `AddMarkerToMongodb` (mongodb.go lines 32–337): assign the fresh identity,
insert the marker document (failure returns the zero marker), then issue the
seven guarded batch writes in source order, then the media-linking loop.
Every later failure returns the already-persisted marker with the error. -/
def AddMarkerToMongodb (exec : StoreOp → Bool) (freshId : Nat) (now : Int)
    (marker : Marker) (mediaIds : List String) : RunResult :=
  let m := { marker with id := freshId }
  let insOp := StoreOp.insertMarker m
  if exec insOp then
    let r := runOps exec m [insOp] (stageOps m now)
    match r.error with
    | none => processMediaIds exec m r.trace mediaIds
    | some _ => r
  else
    { marker := zeroMarker, error := some (MErr.storage "insert marker")
      trace := [insOp] }

/-- `Create` (main.go lines 20–37): reject an empty name before any write,
set `Duration = EndTimestamp - StartTimestamp`, call `AddMarkerToMongodb`
with no media ids (the Go `Create` has no mediaIds parameter and forwards
none), and on any error from it return the zero marker with that error. -/
def Create (exec : StoreOp → Bool) (freshId : Nat) (now : Int)
    (marker : Marker) : RunResult :=
  if marker.name = "" then
    { marker := zeroMarker, error := some MErr.validation, trace := [] }
  else
    let m := { marker with duration := marker.endTimestamp - marker.startTimestamp }
    let r := AddMarkerToMongodb exec freshId now m []
    match r.error with
    | some e => { marker := zeroMarker, error := some e, trace := r.trace }
    | none => r

/-- The all-success store oracle: every issued write succeeds. -/
def execTrue : StoreOp → Bool := fun _ => true

/-! ## Sample inputs used by witnesses and counterexamples -/

/-- A representative valid submission: a named marker with a repeated tag, an
empty-named tag, one event and one category (spec section 8 examples). -/
def sampleMarker : Marker :=
  { id := 0, name := "Motion", startTimestamp := 100, endTimestamp := 110
    duration := 0, organisationId := "A", deviceId := "D", groupId := "G"
    tags := [{ name := "high-priority" }, { name := "high-priority" }, { name := "" }]
    events := [{ name := "enter", startTimestamp := 101, endTimestamp := 102 }]
    categories := [{ name := "security" }] }

/-- A valid marker whose end precedes its start (negative duration). -/
def negMarker : Marker :=
  { id := 0, name := "Backwards", startTimestamp := 110, endTimestamp := 100
    duration := 0, organisationId := "A", deviceId := "D", groupId := "G"
    tags := [], events := [], categories := [] }

/-- A store oracle failing exactly the marker-option bulk upsert. -/
def execFailMarkerOpt : StoreOp → Bool
  | StoreOp.bulkUpsert OptKind.markerName _ => false
  | _ => true

/-! ## Basic run lemmas -/

/-- `runOps` never changes the marker it reports. -/
theorem runOps_marker (exec : StoreOp → Bool) (m : Marker) (acc : List StoreOp)
    (l : List (StoreOp × String)) : (runOps exec m acc l).marker = m := by
  induction l generalizing acc with
  | nil => rfl
  | cons p rest ih =>
    obtain ⟨op, msg⟩ := p
    simp only [runOps]
    split
    · exact ih _
    · rfl

/-- The media loop never changes the marker it reports. -/
theorem processMediaIds_marker (exec : StoreOp → Bool) (m : Marker)
    (acc : List StoreOp) (ids : List String) :
    (processMediaIds exec m acc ids).marker = m := by
  induction ids generalizing acc with
  | nil => rfl
  | cons i rest ih =>
    simp only [processMediaIds]
    split
    · exact ih _
    · split
      · split
        · exact ih _
        · split
          · exact ih _
          · rfl
      · rfl

/-- Under an all-success oracle, `runOps` issues every guarded write in
order and reports no error. -/
theorem runOps_all_success (exec : StoreOp → Bool)
    (hexec : ∀ op, exec op = true) (m : Marker) (acc : List StoreOp)
    (l : List (StoreOp × String)) :
    runOps exec m acc l =
      { marker := m, error := none, trace := acc ++ l.map Prod.fst } := by
  induction l generalizing acc with
  | nil => simp [runOps]
  | cons p rest ih =>
    obtain ⟨op, msg⟩ := p
    simp [runOps, hexec op, ih]

/-- Once the marker insert succeeded, the reported marker carries the fresh
identity no matter how the later stages fare. -/
theorem addMarker_marker_of_insert_success (exec : StoreOp → Bool)
    (freshId : Nat) (now : Int) (marker : Marker) (mediaIds : List String)
    (hins : exec (StoreOp.insertMarker { marker with id := freshId }) = true) :
    (AddMarkerToMongodb exec freshId now marker mediaIds).marker =
      { marker with id := freshId } := by
  simp only [AddMarkerToMongodb, hins, if_true]
  split
  · exact processMediaIds_marker _ _ _ _
  · exact runOps_marker _ _ _ _

/-- A run of `AddMarkerToMongodb` that reports no error reports the input
marker with the fresh identity assigned. -/
theorem addMarker_error_none_marker (exec : StoreOp → Bool) (freshId : Nat)
    (now : Int) (marker : Marker) (mediaIds : List String)
    (h : (AddMarkerToMongodb exec freshId now marker mediaIds).error = none) :
    (AddMarkerToMongodb exec freshId now marker mediaIds).marker =
      { marker with id := freshId } := by
  by_cases hins : exec (StoreOp.insertMarker { marker with id := freshId }) = true
  · exact addMarker_marker_of_insert_success exec freshId now marker mediaIds hins
  · simp [AddMarkerToMongodb, hins] at h

/-- A `Create` run that reports an error reports the zero marker
(main.go lines 24 and 33 both return `models.Marker{}`). -/
theorem Create_marker_of_error (exec : StoreOp → Bool) (freshId : Nat)
    (now : Int) (marker : Marker) (e : MErr)
    (h : (Create exec freshId now marker).error = some e) :
    (Create exec freshId now marker).marker = zeroMarker := by
  by_cases hname : marker.name = ""
  · simp [Create, hname]
  · rcases hA : AddMarkerToMongodb exec freshId now
      { marker with duration := marker.endTimestamp - marker.startTimestamp } []
      with ⟨am, aerr, atr⟩
    cases aerr with
    | none => simp [Create, hname, hA] at h
    | some e2 => simp [Create, hname, hA]

/-- A `Create` run that reports no error reports the input marker with the
fresh identity and the computed duration, and nothing else changed. -/
theorem Create_error_none_marker (exec : StoreOp → Bool) (freshId : Nat)
    (now : Int) (marker : Marker)
    (h : (Create exec freshId now marker).error = none) :
    (Create exec freshId now marker).marker =
      { marker with id := freshId
                    duration := marker.endTimestamp - marker.startTimestamp } := by
  by_cases hname : marker.name = ""
  · simp [Create, hname] at h
  · rcases hA : AddMarkerToMongodb exec freshId now
      { marker with duration := marker.endTimestamp - marker.startTimestamp } []
      with ⟨am, aerr, atr⟩
    cases aerr with
    | some e2 => simp [Create, hname, hA] at h
    | none =>
      have hm := addMarker_error_none_marker exec freshId now
        { marker with duration := marker.endTimestamp - marker.startTimestamp } []
        (by rw [hA])
      rw [hA] at hm
      simp only at hm
      simp [Create, hname, hA, hm]

/-! ## C3: empty name rejected before any write -/

/-- C3: for every marker whose name is the empty string, `Create` returns the
validation error ("marker name is required") and issues zero store writes:
no marker insert, no catalog upsert, no range insert, no media update. -/
theorem create_empty_name_validation_no_writes (exec : StoreOp → Bool)
    (freshId : Nat) (now : Int) (marker : Marker) (h : marker.name = "") :
    (Create exec freshId now marker).error = some MErr.validation ∧
    (Create exec freshId now marker).trace = [] := by
  simp [Create, h]

/-- Witness for C3 at a concrete empty-named marker. -/
theorem create_empty_name_validation_no_writes_witness :
    ({ sampleMarker with name := "" } : Marker).name = "" ∧
    ((Create execTrue 1 5 { sampleMarker with name := "" }).error =
        some MErr.validation ∧
      (Create execTrue 1 5 { sampleMarker with name := "" }).trace = []) :=
  ⟨rfl, create_empty_name_validation_no_writes execTrue 1 5 _ rfl⟩

/-! ## C4: duration = end − start, negative allowed -/

/-- C4: for every marker accepted by `Create` (no error reported), the
returned marker's duration is exactly the integer difference
`endTimestamp - startTimestamp`; nothing rejects a negative difference. -/
theorem create_duration_eq_end_sub_start (exec : StoreOp → Bool)
    (freshId : Nat) (now : Int) (marker : Marker)
    (h : (Create exec freshId now marker).error = none) :
    (Create exec freshId now marker).marker.duration =
      marker.endTimestamp - marker.startTimestamp := by
  rw [Create_error_none_marker exec freshId now marker h]

/-- Witness for C4 at a concrete marker whose end precedes its start: the
run succeeds and the returned duration is the negative difference. -/
theorem create_duration_eq_end_sub_start_witness :
    (Create execTrue 1 5 negMarker).error = none ∧
    (Create execTrue 1 5 negMarker).marker.duration =
      negMarker.endTimestamp - negMarker.startTimestamp :=
  ⟨rfl, create_duration_eq_end_sub_start execTrue 1 5 negMarker rfl⟩

/-! ## C10: only Id and Duration change on a fully successful run -/

/-- C10: on a successful run, the marker returned by `Create` agrees with the
input marker on every field except the freshly assigned identity and the
computed duration. -/
theorem create_frame_only_id_and_duration (exec : StoreOp → Bool)
    (freshId : Nat) (now : Int) (marker : Marker)
    (h : (Create exec freshId now marker).error = none) :
    (Create exec freshId now marker).marker.name = marker.name ∧
    (Create exec freshId now marker).marker.startTimestamp = marker.startTimestamp ∧
    (Create exec freshId now marker).marker.endTimestamp = marker.endTimestamp ∧
    (Create exec freshId now marker).marker.organisationId = marker.organisationId ∧
    (Create exec freshId now marker).marker.deviceId = marker.deviceId ∧
    (Create exec freshId now marker).marker.groupId = marker.groupId ∧
    (Create exec freshId now marker).marker.tags = marker.tags ∧
    (Create exec freshId now marker).marker.events = marker.events ∧
    (Create exec freshId now marker).marker.categories = marker.categories ∧
    (Create exec freshId now marker).marker.id = freshId ∧
    (Create exec freshId now marker).marker.duration =
      marker.endTimestamp - marker.startTimestamp := by
  rw [Create_error_none_marker exec freshId now marker h]
  exact ⟨rfl, rfl, rfl, rfl, rfl, rfl, rfl, rfl, rfl, rfl, rfl⟩

/-- Witness for C10 at the sample marker under the all-success oracle. -/
theorem create_frame_only_id_and_duration_witness :
    (Create execTrue 7 5 sampleMarker).error = none ∧
    (Create execTrue 7 5 sampleMarker).marker.tags = sampleMarker.tags ∧
    (Create execTrue 7 5 sampleMarker).marker.id = 7 :=
  ⟨rfl, (create_frame_only_id_and_duration execTrue 7 5 sampleMarker rfl).2.2.2.2.2.2.1,
    (create_frame_only_id_and_duration execTrue 7 5 sampleMarker rfl).2.2.2.2.2.2.2.2.2.1⟩

/-! ## C1: what is returned when a later stage fails -/

/-- C1 counterexample: with a store oracle that fails only the marker-option
bulk upsert, `Create` on the sample marker reports the wrapped storage error
and the marker document insert is in the trace (it succeeded and is not
rolled back), yet `Create` returns the zero-value marker — not the persisted
marker with its assigned identity, as the claim states. -/
theorem create_stage_failure_returns_zero_marker :
    (Create execFailMarkerOpt 1 5 sampleMarker).error =
      some (MErr.storage "failed to upsert marker options") ∧
    (Create execFailMarkerOpt 1 5 sampleMarker).trace.head? =
      some (StoreOp.insertMarker { sampleMarker with id := 1, duration := 10 }) ∧
    (Create execFailMarkerOpt 1 5 sampleMarker).marker = zeroMarker :=
  ⟨rfl, rfl, rfl⟩

/-- C1 amended: when the marker insert succeeds and a later stage fails, the
storage layer `AddMarkerToMongodb` does return the already-persisted marker
(with its assigned identity) alongside the wrapped storage error — but the
caller-facing `Create` discards it and returns the zero-value marker
alongside the error. -/
theorem stage_failure_marker_reporting (exec : StoreOp → Bool) (freshId : Nat)
    (now : Int) (marker : Marker) (mediaIds : List String) (stage : String)
    (hins : exec (StoreOp.insertMarker { marker with id := freshId }) = true)
    (herr : (AddMarkerToMongodb exec freshId now marker mediaIds).error =
      some (MErr.storage stage)) :
    (AddMarkerToMongodb exec freshId now marker mediaIds).marker =
      { marker with id := freshId } ∧
    (AddMarkerToMongodb exec freshId now marker mediaIds).error =
      some (MErr.storage stage) ∧
    ∀ marker2 e, (Create exec freshId now marker2).error = some e →
      (Create exec freshId now marker2).marker = zeroMarker :=
  ⟨addMarker_marker_of_insert_success exec freshId now marker mediaIds hins,
    herr,
    fun marker2 e h2 => Create_marker_of_error exec freshId now marker2 e h2⟩

/-- Witness for the amended C1 at the sample marker with the oracle that
fails the marker-option stage. -/
theorem stage_failure_marker_reporting_witness :
    (execFailMarkerOpt (StoreOp.insertMarker
        { { sampleMarker with duration := 10 } with id := 1 }) = true) ∧
    ((AddMarkerToMongodb execFailMarkerOpt 1 5
        { sampleMarker with duration := 10 } []).error =
      some (MErr.storage "failed to upsert marker options")) ∧
    ((AddMarkerToMongodb execFailMarkerOpt 1 5
        { sampleMarker with duration := 10 } []).marker =
      { { sampleMarker with duration := 10 } with id := 1 }) :=
  ⟨rfl, rfl,
    (stage_failure_marker_reporting execFailMarkerOpt 1 5
      { sampleMarker with duration := 10 } [] "failed to upsert marker options"
      rfl rfl).1⟩

/-! ## Dedup lemmas for the catalog upsert builders -/

/-- A name appears among the built upserts' filter values exactly when it is a
non-empty input name not already in the seen-set. -/
theorem buildOptUpserts_mem (org : String) (now : Int) (seen names : List String)
    (n : String) :
    n ∈ (buildOptUpserts org now seen names).map OptUpsert.filterValue ↔
      n ∈ names ∧ n ≠ "" ∧ n ∉ seen := by
  induction names generalizing seen with
  | nil => simp [buildOptUpserts]
  | cons x rest ih =>
    simp only [buildOptUpserts]
    split_ifs with hx hmem
    · subst hx
      rw [ih]
      constructor
      · rintro ⟨h1, h2, h3⟩
        exact ⟨List.mem_cons_of_mem _ h1, h2, h3⟩
      · rintro ⟨h1, h2, h3⟩
        rcases List.mem_cons.mp h1 with h4 | h4
        · exact absurd h4 h2
        · exact ⟨h4, h2, h3⟩
    · rw [ih]
      constructor
      · rintro ⟨h1, h2, h3⟩
        exact ⟨List.mem_cons_of_mem _ h1, h2, h3⟩
      · rintro ⟨h1, h2, h3⟩
        rcases List.mem_cons.mp h1 with h4 | h4
        · exact absurd (h4 ▸ hmem) h3
        · exact ⟨h4, h2, h3⟩
    · simp only [List.map_cons, mkOptUpsert, List.mem_cons]
      rw [ih]
      constructor
      · rintro (h1 | ⟨h1, h2, h3⟩)
        · subst h1
          exact ⟨Or.inl rfl, hx, hmem⟩
        · refine ⟨Or.inr h1, h2, fun hn => h3 ?_⟩
          exact List.mem_cons_of_mem _ hn
      · rintro ⟨h1, h2, h3⟩
        rcases h1 with h4 | h4
        · exact Or.inl h4
        · by_cases hnx : n = x
          · exact Or.inl hnx
          · refine Or.inr ⟨h4, h2, fun hn => ?_⟩
            rcases List.mem_cons.mp hn with h5 | h5
            · exact hnx h5
            · exact h3 h5

/-- The built upserts' filter values are pairwise distinct: repeats within
the submission collapse to one upsert. -/
theorem buildOptUpserts_nodup (org : String) (now : Int) (seen names : List String) :
    ((buildOptUpserts org now seen names).map OptUpsert.filterValue).Nodup := by
  induction names generalizing seen with
  | nil => simp [buildOptUpserts]
  | cons x rest ih =>
    simp only [buildOptUpserts]
    split_ifs with hx hmem
    · exact ih seen
    · exact ih seen
    · simp only [List.map_cons, mkOptUpsert, List.nodup_cons]
      refine ⟨?_, ih (x :: seen)⟩
      rw [buildOptUpserts_mem]
      rintro ⟨-, -, h3⟩
      exact h3 (List.mem_cons_self x seen)

/-- Every built upsert is keyed by `(value, organisationId)` and carries the
source-mandated field assignments; none carries a category `$addToSet`. -/
theorem buildOptUpserts_fields (org : String) (now : Int) (seen names : List String) :
    ∀ u ∈ buildOptUpserts org now seen names,
      u.filterOrg = org ∧ u.value = u.filterValue ∧ u.text = u.filterValue ∧
      u.organisationId = org ∧ u.createdAt = now ∧ u.updatedAt = now ∧
      u.categoriesEach = none := by
  induction names generalizing seen with
  | nil => simp [buildOptUpserts]
  | cons x rest ih =>
    simp only [buildOptUpserts]
    split_ifs with hx hmem
    · exact ih seen
    · exact ih seen
    · intro u hu
      rcases List.mem_cons.mp hu with h | h
      · subst h
        exact ⟨rfl, rfl, rfl, rfl, rfl, rfl, rfl⟩
      · exact ih (x :: seen) u h

/-- The Go append-unless-skipped loop shape: folding with a skip condition is
filtering then mapping. -/
theorem foldl_skip_append {α β : Type} (p : α → Prop) [DecidablePred p]
    (f : α → β) (l : List α) (acc : List β) :
    l.foldl (fun a x => if p x then a else a ++ [f x]) acc =
      acc ++ (l.filter (fun x => ¬ p x)).map f := by
  induction l generalizing acc with
  | nil => simp
  | cons x rest ih =>
    by_cases hx : p x <;>
      simp [List.foldl_cons, hx, ih, List.append_assoc]

/-- Membership in one guarded stage write. -/
theorem mem_map_fst_guardedOp (c : Prop) [Decidable c] (op op2 : StoreOp)
    (msg : String) :
    op ∈ (guardedOp c op2 msg).map Prod.fst ↔ c ∧ op = op2 := by
  by_cases h : c <;> simp [guardedOp, h]

/-- C5: each option catalog updater issues exactly one upsert per distinct
non-empty label name of its kind (repeats collapse: the filter values are
duplicate-free and range over exactly the non-empty names of the
submission), keyed by `(value, organisationId)` with the mandated field
assignments; an empty distinct-name set puts no batch write in the stage
list and a non-empty one puts exactly its batch there; and only the
marker-name kind's upsert carries the submission's non-empty category names
as a `$addToSet` on the option's category set. -/
theorem catalog_upserts_dedup_keys (m : Marker) (now : Int) :
    (((tagOptUpserts m now).map OptUpsert.filterValue).Nodup ∧
      (∀ n, n ∈ (tagOptUpserts m now).map OptUpsert.filterValue ↔
        n ∈ m.tags.map Tag.name ∧ n ≠ "") ∧
      (∀ u ∈ tagOptUpserts m now, u.filterOrg = m.organisationId ∧
        u.value = u.filterValue ∧ u.text = u.filterValue ∧
        u.organisationId = m.organisationId ∧ u.createdAt = now ∧
        u.updatedAt = now ∧ u.categoriesEach = none)) ∧
    (((eventOptUpserts m now).map OptUpsert.filterValue).Nodup ∧
      (∀ n, n ∈ (eventOptUpserts m now).map OptUpsert.filterValue ↔
        n ∈ m.events.map Event.name ∧ n ≠ "") ∧
      (∀ u ∈ eventOptUpserts m now, u.filterOrg = m.organisationId ∧
        u.value = u.filterValue ∧ u.text = u.filterValue ∧
        u.organisationId = m.organisationId ∧ u.createdAt = now ∧
        u.updatedAt = now ∧ u.categoriesEach = none)) ∧
    (((categoryOptUpserts m now).map OptUpsert.filterValue).Nodup ∧
      (∀ n, n ∈ (categoryOptUpserts m now).map OptUpsert.filterValue ↔
        n ∈ m.categories.map Category.name ∧ n ≠ "") ∧
      (∀ u ∈ categoryOptUpserts m now, u.filterOrg = m.organisationId ∧
        u.value = u.filterValue ∧ u.text = u.filterValue ∧
        u.organisationId = m.organisationId ∧ u.createdAt = now ∧
        u.updatedAt = now ∧ u.categoriesEach = none)) ∧
    ((∀ n, n ∈ (markerOptUpserts m now).map OptUpsert.filterValue ↔
        (n = m.name ∧ n ≠ "")) ∧
      (∀ u ∈ markerOptUpserts m now, u.filterOrg = m.organisationId ∧
        u.value = m.name ∧ u.text = m.name ∧
        u.organisationId = m.organisationId ∧ u.createdAt = now ∧
        u.updatedAt = now ∧
        u.categoriesEach =
          some ((m.categories.map Category.name).filter (fun n => n ≠ "")))) ∧
    ((StoreOp.bulkUpsert OptKind.markerName (markerOptUpserts m now) ∈
        (stageOps m now).map Prod.fst ↔ markerOptUpserts m now ≠ []) ∧
      (StoreOp.bulkUpsert OptKind.tag (tagOptUpserts m now) ∈
        (stageOps m now).map Prod.fst ↔ tagOptUpserts m now ≠ []) ∧
      (StoreOp.bulkUpsert OptKind.event (eventOptUpserts m now) ∈
        (stageOps m now).map Prod.fst ↔ eventOptUpserts m now ≠ []) ∧
      (StoreOp.bulkUpsert OptKind.category (categoryOptUpserts m now) ∈
        (stageOps m now).map Prod.fst ↔ categoryOptUpserts m now ≠ [])) := by
  refine ⟨⟨buildOptUpserts_nodup _ _ _ _, fun n => ?_,
      buildOptUpserts_fields _ _ _ _⟩,
    ⟨buildOptUpserts_nodup _ _ _ _, fun n => ?_,
      buildOptUpserts_fields _ _ _ _⟩,
    ⟨buildOptUpserts_nodup _ _ _ _, fun n => ?_,
      buildOptUpserts_fields _ _ _ _⟩,
    ⟨fun n => ?_, fun u hu => ?_⟩, ?_, ?_, ?_, ?_⟩
  · rw [tagOptUpserts, buildOptUpserts_mem]
    simp
  · rw [eventOptUpserts, buildOptUpserts_mem]
    simp
  · rw [categoryOptUpserts, buildOptUpserts_mem]
    simp
  · by_cases hname : m.name = ""
    · rw [markerOptUpserts, if_pos hname, hname]
      simp only [List.map_nil, List.not_mem_nil, false_iff]
      rintro ⟨rfl, h2⟩
      exact h2 rfl
    · simp [markerOptUpserts, hname, mkOptUpsert]
      intro h
      subst h
      exact hname
  · by_cases hname : m.name = ""
    · simp [markerOptUpserts, hname] at hu
    · simp only [markerOptUpserts, if_neg hname, List.mem_singleton] at hu
      subst hu
      exact ⟨rfl, rfl, rfl, rfl, rfl, rfl, rfl⟩
  · simp only [stageOps, List.map_append, List.mem_append,
      mem_map_fst_guardedOp]
    simp
  · simp only [stageOps, List.map_append, List.mem_append,
      mem_map_fst_guardedOp]
    simp
  · simp only [stageOps, List.map_append, List.mem_append,
      mem_map_fst_guardedOp]
    simp
  · simp only [stageOps, List.map_append, List.mem_append,
      mem_map_fst_guardedOp]
    simp

/-! ## C6: range records -/

/-- C6 counterexample: the sample submission has an event, and its event
range document carries an `updatedAt` attribute — the record's attributes
are not exactly the eight listed by the claim. -/
theorem event_range_doc_extra_updatedAt :
    eventRangeDocs sampleMarker 5 ≠ [] ∧
    (eventRangeDocs sampleMarker 5).all (fun d => d.updatedAt.isNone) = false :=
  ⟨by decide, rfl⟩

/-- C6 amended: the range recorder appends exactly one record per non-empty
label occurrence (occurrences not deduplicated); marker and tag records carry
the parent marker's start/end, event records the event's own start/end; the
marker and tag records' attributes are exactly value, text, organisation id,
start, end, device id, group id and created-at, while the event records
additionally carry an updated-at attribute set to the same timestamp. -/
theorem range_docs_per_occurrence (m : Marker) (now : Int) :
    markerRangeDocs m now =
      (if m.name = "" then [] else
        [{ value := m.name, text := m.name, organisationId := m.organisationId
           startTs := m.startTimestamp, endTs := m.endTimestamp
           deviceId := m.deviceId, groupId := m.groupId
           createdAt := now, updatedAt := none }]) ∧
    tagRangeDocs m now =
      (m.tags.filter (fun t => ¬ t.name = "")).map (fun t =>
        { value := t.name, text := t.name, organisationId := m.organisationId
          startTs := m.startTimestamp, endTs := m.endTimestamp
          deviceId := m.deviceId, groupId := m.groupId
          createdAt := now, updatedAt := none }) ∧
    eventRangeDocs m now =
      (m.events.filter (fun e => ¬ e.name = "")).map (fun e =>
        { value := e.name, text := e.name, organisationId := m.organisationId
          startTs := e.startTimestamp, endTs := e.endTimestamp
          deviceId := m.deviceId, groupId := m.groupId
          createdAt := now, updatedAt := some now }) := by
  refine ⟨rfl, ?_, ?_⟩
  · rw [tagRangeDocs, foldl_skip_append (fun t : Tag => t.name = "")
      (fun t : Tag =>
        ({ value := t.name, text := t.name, organisationId := m.organisationId
           startTs := m.startTimestamp, endTs := m.endTimestamp
           deviceId := m.deviceId, groupId := m.groupId
           createdAt := now, updatedAt := none } : RangeDoc)) m.tags []]
    simp
  · rw [eventRangeDocs, foldl_skip_append (fun e : Event => e.name = "")
      (fun e : Event =>
        ({ value := e.name, text := e.name, organisationId := m.organisationId
           startTs := e.startTimestamp, endTs := e.endTimestamp
           deviceId := m.deviceId, groupId := m.groupId
           createdAt := now, updatedAt := some now } : RangeDoc)) m.events []]
    simp

/-! ## C7: write order -/

/-- Is this write a catalog (bulk upsert) write? -/
def isCatalogWrite : StoreOp → Bool
  | StoreOp.bulkUpsert _ _ => true
  | _ => false

/-- Is this write a range (batch insert) write? -/
def isRangeWrite : StoreOp → Bool
  | StoreOp.insertRanges _ _ => true
  | _ => false

/-- Claim-side order predicate: every catalog batch write is issued before
any range batch write (no catalog write occurs after a range write). -/
def catalogsAllBeforeRanges : List StoreOp → Bool
  | [] => true
  | op :: rest =>
    (!(isRangeWrite op) || rest.all (fun b => !(isCatalogWrite b)))
    && catalogsAllBeforeRanges rest

/-- C7 counterexample: on the sample submission (which succeeds end to end)
the marker-range insert is issued before the tag-, event- and category-option
upserts, so the catalog batch writes are not all issued before the range
batch writes. -/
theorem catalog_range_writes_interleaved :
    (AddMarkerToMongodb execTrue 1 5 sampleMarker []).error = none ∧
    catalogsAllBeforeRanges
      (AddMarkerToMongodb execTrue 1 5 sampleMarker []).trace = false :=
  ⟨rfl, rfl⟩

/-- The media-linking writes a fully successful loop issues, in order:
one conditional update per non-empty identifier with at least one name to
add (the success-path projection of `processMediaIds`). -/
def successMediaOps (m : Marker) : List String → List StoreOp
  | [] => []
  | mediaId :: rest =>
    if mediaId = "" then successMediaOps m rest
    else if (mkMediaUpdate m mediaId).namesEmpty then successMediaOps m rest
    else StoreOp.updateMedia (mkMediaUpdate m mediaId) :: successMediaOps m rest

/-- With an all-success oracle and well-formed identifiers, the media loop
reports no error and appends exactly its success-path writes. -/
theorem processMediaIds_all_success (exec : StoreOp → Bool)
    (hexec : ∀ op, exec op = true) (m : Marker) (acc : List StoreOp)
    (ids : List String)
    (hids : ∀ i ∈ ids, i = "" ∨ isValidObjectIdHex i = true) :
    processMediaIds exec m acc ids =
      { marker := m, error := none, trace := acc ++ successMediaOps m ids } := by
  induction ids generalizing acc with
  | nil => simp [processMediaIds, successMediaOps]
  | cons i rest ih =>
    have hrest : ∀ j ∈ rest, j = "" ∨ isValidObjectIdHex j = true :=
      fun j hj => hids j (List.mem_cons_of_mem _ hj)
    by_cases h1 : i = ""
    · simp [processMediaIds, successMediaOps, h1, ih _ hrest]
    · have hv : isValidObjectIdHex i = true :=
        (hids i (List.mem_cons_self _ _)).resolve_left h1
      by_cases h2 : (mkMediaUpdate m i).namesEmpty = true
      · simp [processMediaIds, successMediaOps, h1, hv, h2, ih _ hrest]
      · simp [processMediaIds, successMediaOps, h1, hv, h2, hexec,
          ih _ hrest, List.append_assoc]

/-- With an all-success oracle and well-formed identifiers, the full storage
run reports no error and its trace is the marker insert followed by the
seven guarded batch writes in source order followed by the media updates. -/
theorem addMarker_all_success (exec : StoreOp → Bool)
    (hexec : ∀ op, exec op = true) (freshId : Nat) (now : Int)
    (marker : Marker) (mediaIds : List String)
    (hids : ∀ i ∈ mediaIds, i = "" ∨ isValidObjectIdHex i = true) :
    AddMarkerToMongodb exec freshId now marker mediaIds =
      { marker := { marker with id := freshId }, error := none
        trace := StoreOp.insertMarker { marker with id := freshId } ::
          ((stageOps { marker with id := freshId } now).map Prod.fst ++
            successMediaOps { marker with id := freshId } mediaIds) } := by
  simp [AddMarkerToMongodb, hexec, runOps_all_success exec hexec,
    processMediaIds_all_success exec hexec _ _ _ hids]

/-- C7 amended: after the marker insert, the batch writes are interleaved per
kind — marker-name catalog, marker ranges, tag catalog, tag ranges, event
catalog, event ranges, category catalog — each issued only when non-empty,
and all of them precede every media-linker update. -/
theorem pipeline_write_order (freshId : Nat) (now : Int) (marker : Marker)
    (mediaIds : List String)
    (hids : ∀ i ∈ mediaIds, i = "" ∨ isValidObjectIdHex i = true) :
    (AddMarkerToMongodb execTrue freshId now marker mediaIds).trace =
      StoreOp.insertMarker { marker with id := freshId } ::
      (((if markerOptUpserts { marker with id := freshId } now ≠ [] then
          [StoreOp.bulkUpsert OptKind.markerName
            (markerOptUpserts { marker with id := freshId } now)] else [])
        ++ (if markerRangeDocs { marker with id := freshId } now ≠ [] then
          [StoreOp.insertRanges RangeKind.markerName
            (markerRangeDocs { marker with id := freshId } now)] else [])
        ++ (if tagOptUpserts { marker with id := freshId } now ≠ [] then
          [StoreOp.bulkUpsert OptKind.tag
            (tagOptUpserts { marker with id := freshId } now)] else [])
        ++ (if tagRangeDocs { marker with id := freshId } now ≠ [] then
          [StoreOp.insertRanges RangeKind.tag
            (tagRangeDocs { marker with id := freshId } now)] else [])
        ++ (if eventOptUpserts { marker with id := freshId } now ≠ [] then
          [StoreOp.bulkUpsert OptKind.event
            (eventOptUpserts { marker with id := freshId } now)] else [])
        ++ (if eventRangeDocs { marker with id := freshId } now ≠ [] then
          [StoreOp.insertRanges RangeKind.event
            (eventRangeDocs { marker with id := freshId } now)] else [])
        ++ (if categoryOptUpserts { marker with id := freshId } now ≠ [] then
          [StoreOp.bulkUpsert OptKind.category
            (categoryOptUpserts { marker with id := freshId } now)] else []))
        ++ successMediaOps { marker with id := freshId } mediaIds) := by
  rw [addMarker_all_success execTrue (fun op => rfl) freshId now marker
    mediaIds hids]
  simp [stageOps, guardedOp, apply_ite (List.map Prod.fst),
    List.append_assoc]

/-! ## C2: where media identifiers are accepted -/

/-- Is this write a media-linking update? -/
def isMediaUpdateOp : StoreOp → Bool
  | StoreOp.updateMedia _ => true
  | _ => false

/-- Every operation in a `runOps` trace comes from the accumulator or from
the guarded-stage list. -/
theorem runOps_trace_mem (exec : StoreOp → Bool) (m : Marker)
    (acc : List StoreOp) (l : List (StoreOp × String)) :
    ∀ op ∈ (runOps exec m acc l).trace, op ∈ acc ∨ op ∈ l.map Prod.fst := by
  induction l generalizing acc with
  | nil => exact fun op h => Or.inl h
  | cons p rest ih =>
    obtain ⟨op0, msg⟩ := p
    intro op h
    simp only [runOps] at h
    split at h
    · rcases ih (acc ++ [op0]) op h with h2 | h2
      · rcases List.mem_append.mp h2 with h3 | h3
        · exact Or.inl h3
        · rcases List.mem_singleton.mp h3 with rfl
          exact Or.inr (by simp)
      · exact Or.inr (by simp [h2])
    · rcases List.mem_append.mp h with h3 | h3
      · exact Or.inl h3
      · rcases List.mem_singleton.mp h3 with rfl
        exact Or.inr (by simp)

/-- None of the seven guarded batch writes is a media update. -/
theorem stageOps_no_media (m : Marker) (now : Int) :
    ∀ p ∈ stageOps m now, isMediaUpdateOp p.1 = false := by
  intro p hp
  simp only [stageOps, guardedOp, List.mem_append] at hp
  rcases hp with ((((((h | h) | h) | h) | h) | h) | h) <;>
    · split at h
      · rcases List.mem_singleton.mp h with rfl
        rfl
      · exact absurd h (List.not_mem_nil p)

/-- For a non-empty name, the trace of `Create` is the trace of the storage
call it makes — with no media identifiers. -/
theorem Create_trace_eq_storage (exec : StoreOp → Bool) (freshId : Nat)
    (now : Int) (marker : Marker) (h : ¬ marker.name = "") :
    (Create exec freshId now marker).trace =
      (AddMarkerToMongodb exec freshId now
        { marker with duration := marker.endTimestamp - marker.startTimestamp }
        []).trace := by
  rcases hA : AddMarkerToMongodb exec freshId now
    { marker with duration := marker.endTimestamp - marker.startTimestamp } []
    with ⟨am, aerr, atr⟩
  cases aerr <;> simp [Create, h, hA]

/-- Without media identifiers, no media update is ever issued — under any
store oracle, on any path. -/
theorem addMarker_no_media_without_ids (exec : StoreOp → Bool) (freshId : Nat)
    (now : Int) (marker : Marker) :
    ∀ op ∈ (AddMarkerToMongodb exec freshId now marker []).trace,
      isMediaUpdateOp op = false := by
  intro op hop
  by_cases hins : exec (StoreOp.insertMarker { marker with id := freshId }) = true
  · simp only [AddMarkerToMongodb, hins, if_true] at hop
    split at hop
    · simp only [processMediaIds] at hop
      rcases runOps_trace_mem exec _ _ _ op hop with h | h
      · rcases List.mem_singleton.mp h with rfl
        rfl
      · rcases List.mem_map.mp h with ⟨p, hp, rfl⟩
        exact stageOps_no_media _ _ p hp
    · rcases runOps_trace_mem exec _ _ _ op hop with h | h
      · rcases List.mem_singleton.mp h with rfl
        rfl
      · rcases List.mem_map.mp h with ⟨p, hp, rfl⟩
        exact stageOps_no_media _ _ p hp
  · rw [Bool.not_eq_true] at hins
    simp only [AddMarkerToMongodb, hins, Bool.false_eq_true, if_false] at hop
    rcases List.mem_singleton.mp hop with rfl
    rfl

/-- No `Create` run issues a media update: the caller-facing operation has no
media-identifier parameter to forward. -/
theorem Create_trace_no_media (exec : StoreOp → Bool) (freshId : Nat)
    (now : Int) (marker : Marker) :
    (Create exec freshId now marker).trace.filter isMediaUpdateOp = [] := by
  rw [List.filter_eq_nil_iff]
  intro op hop
  by_cases hname : marker.name = ""
  · simp [Create, hname] at hop
  · rw [Create_trace_eq_storage exec freshId now marker hname] at hop
    simp [addMarker_no_media_without_ids exec freshId now _ op hop]

/-- Every success-path media operation is a media update. -/
theorem successMediaOps_all_media (m : Marker) (ids : List String) :
    ∀ op ∈ successMediaOps m ids, isMediaUpdateOp op = true := by
  induction ids with
  | nil => simp [successMediaOps]
  | cons i rest ih =>
    intro op hop
    simp only [successMediaOps] at hop
    split at hop
    · exact ih op hop
    · split at hop
      · exact ih op hop
      · rcases List.mem_cons.mp hop with rfl | h
        · rfl
        · exact ih op h

/-- Each non-empty identifier with something to add contributes its update
to the success-path media operations. -/
theorem successMediaOps_mem (m : Marker) (ids : List String) (mediaId : String)
    (hmem : mediaId ∈ ids) (hne : ¬ mediaId = "")
    (hnames : ¬ (mkMediaUpdate m mediaId).namesEmpty = true) :
    StoreOp.updateMedia (mkMediaUpdate m mediaId) ∈ successMediaOps m ids := by
  induction ids with
  | nil => exact absurd hmem (List.not_mem_nil mediaId)
  | cons i rest ih =>
    rcases List.mem_cons.mp hmem with rfl | h
    · simp only [successMediaOps, if_neg hne, if_neg hnames]
      exact List.mem_cons_self _ _
    · simp only [successMediaOps]
      split
      · exact ih h
      · split
        · exact ih h
        · exact List.mem_cons_of_mem _ (ih h)

/-- The media updates of a fully successful storage run are exactly its
success-path media operations, in order. -/
theorem addMarker_media_filter (exec : StoreOp → Bool)
    (hexec : ∀ op, exec op = true) (freshId : Nat) (now : Int)
    (marker : Marker) (mediaIds : List String)
    (hids : ∀ i ∈ mediaIds, i = "" ∨ isValidObjectIdHex i = true) :
    (AddMarkerToMongodb exec freshId now marker mediaIds).trace.filter
        isMediaUpdateOp =
      successMediaOps { marker with id := freshId } mediaIds := by
  rw [addMarker_all_success exec hexec freshId now marker mediaIds hids]
  simp only [List.filter_cons, List.filter_append]
  rw [List.filter_eq_nil_iff.mpr, List.filter_eq_self.mpr]
  · simp [isMediaUpdateOp]
  · exact successMediaOps_all_media _ _
  · intro op hop
    rcases List.mem_map.mp hop with ⟨p, hp, rfl⟩
    simp [stageOps_no_media _ _ p hp]

/-- C2 counterexample: on the sample submission, a fully successful `Create`
issues no media update at all, although the same submission processed by the
storage layer with one supplied media identifier issues exactly one — the
caller-facing `Create` has no media-identifier parameter and always invokes
the storage layer with none. -/
theorem create_never_links_media :
    (Create execTrue 1 5 sampleMarker).error = none ∧
    (Create execTrue 1 5 sampleMarker).trace.filter isMediaUpdateOp = [] ∧
    (AddMarkerToMongodb execTrue 1 5 { sampleMarker with duration := 10 }
        ["507f1f77bcf86cd799439011"]).trace.filter isMediaUpdateOp =
      [StoreOp.updateMedia
        { mediaObjectId := "507f1f77bcf86cd799439011", markerStart := 100
          markerNames := ["Motion"]
          tagNames := ["high-priority", "high-priority"]
          eventNames := ["enter"] }] :=
  ⟨rfl, rfl, rfl⟩

/-- C2 amended: the storage layer `AddMarkerToMongodb` accepts the optional
media-identifier list and performs the media-linking stage for every
non-empty identifier that has names to add (empty identifiers are skipped,
not errors); the caller-facing `Create` accepts no media identifiers,
invokes the storage layer with none, and therefore never performs media
linking. -/
theorem media_linking_storage_layer_only (exec : StoreOp → Bool)
    (freshId : Nat) (now : Int) (marker : Marker) (mediaIds : List String)
    (hexec : ∀ op, exec op = true)
    (hids : ∀ i ∈ mediaIds, i = "" ∨ isValidObjectIdHex i = true) :
    ((AddMarkerToMongodb exec freshId now marker mediaIds).trace.filter
        isMediaUpdateOp =
      successMediaOps { marker with id := freshId } mediaIds) ∧
    (∀ mediaId ∈ mediaIds, ¬ mediaId = "" →
      ¬ (mkMediaUpdate { marker with id := freshId } mediaId).namesEmpty = true →
      StoreOp.updateMedia (mkMediaUpdate { marker with id := freshId } mediaId) ∈
        (AddMarkerToMongodb exec freshId now marker mediaIds).trace) ∧
    (∀ exec2 freshId2 now2 marker2,
      (Create exec2 freshId2 now2 marker2).trace.filter isMediaUpdateOp = []) := by
  refine ⟨addMarker_media_filter exec hexec freshId now marker mediaIds hids,
    fun mediaId hmem hne hnames => ?_,
    fun exec2 freshId2 now2 marker2 =>
      Create_trace_no_media exec2 freshId2 now2 marker2⟩
  rw [addMarker_all_success exec hexec freshId now marker mediaIds hids]
  simp only [List.mem_cons, List.mem_append]
  exact Or.inr (Or.inr (successMediaOps_mem _ mediaIds mediaId hmem hne hnames))

/-- Witness for the amended C2 at the sample marker with one valid media
identifier. -/
theorem media_linking_storage_layer_only_witness :
    ((AddMarkerToMongodb execTrue 1 5 sampleMarker
        ["507f1f77bcf86cd799439011", ""]).trace.filter isMediaUpdateOp =
      successMediaOps { sampleMarker with id := 1 }
        ["507f1f77bcf86cd799439011", ""]) ∧
    (Create execTrue 1 5 sampleMarker).trace.filter isMediaUpdateOp = [] := by
  have h := media_linking_storage_layer_only execTrue 1 5 sampleMarker
    ["507f1f77bcf86cd799439011", ""] (fun op => rfl)
    (by
      intro i hi
      rcases List.mem_cons.mp hi with rfl | hi2
      · exact Or.inr rfl
      · rcases List.mem_singleton.mp hi2 with rfl
        exact Or.inl rfl)
  exact ⟨h.1, h.2.2 execTrue 1 5 sampleMarker⟩

/-! ## C8: the conditional media update -/

/-- Modelled from the spec: the externally-owned media document — an id, a
start/end timestamp range, and the three set-valued name fields this
pipeline adds to. -/
structure MediaDoc where
  id : String
  startTimestamp : Int
  endTimestamp : Int
  markerNames : List String
  tagNames : List String
  eventNames : List String
  deriving Repr, DecidableEq

/-- The media update's filter (mongodb.go lines 323–327): the document must
have the parsed id AND satisfy the containment predicate
`media.start ≤ marker.start ≤ media.end`. -/
def mediaFilterMatches (u : MediaUpdate) (d : MediaDoc) : Bool :=
  d.id = u.mediaObjectId && d.startTimestamp ≤ u.markerStart &&
    u.markerStart ≤ d.endTimestamp

/-- Modelled from the spec: MongoDB `$addToSet` with `$each` — set union,
appending only members not already present. -/
def addToSet (s : List String) (xs : List String) : List String :=
  xs.foldl (fun acc x => if x ∈ acc then acc else acc ++ [x]) s

/-- Modelled from the spec: MongoDB `UpdateOne` applies the `$addToSet`
update to the first document matching the filter; zero matching documents
modify nothing and are not an error. -/
def applyMediaUpdate (u : MediaUpdate) : List MediaDoc → List MediaDoc
  | [] => []
  | d :: rest =>
    if mediaFilterMatches u d then
      { d with markerNames := addToSet d.markerNames u.markerNames
               tagNames := addToSet d.tagNames u.tagNames
               eventNames := addToSet d.eventNames u.eventNames } :: rest
    else d :: applyMediaUpdate u rest

/-- The tag names collected for the media update, as filter-then-map. -/
theorem mediaTagNames_eq (m : Marker) :
    mediaTagNames m = (m.tags.filter (fun t => ¬ t.name = "")).map Tag.name := by
  rw [mediaTagNames, foldl_skip_append (fun t : Tag => t.name = "")
    (fun t : Tag => t.name) m.tags []]
  simp

/-- The event names collected for the media update, as filter-then-map. -/
theorem mediaEventNames_eq (m : Marker) :
    mediaEventNames m =
      (m.events.filter (fun e => ¬ e.name = "")).map Event.name := by
  rw [mediaEventNames, foldl_skip_append (fun e : Event => e.name = "")
    (fun e : Event => e.name) m.events []]
  simp

/-- The built update has no names to add exactly when every marker, tag and
event name of the submission is empty. -/
theorem mediaUpdate_namesEmpty_iff (m : Marker) (mediaId : String) :
    (mkMediaUpdate m mediaId).namesEmpty = true ↔
      (m.name = "" ∧ (∀ t ∈ m.tags, t.name = "") ∧
        (∀ e ∈ m.events, e.name = "")) := by
  simp only [mkMediaUpdate, MediaUpdate.namesEmpty, Bool.and_eq_true,
    List.isEmpty_iff, mediaTagNames_eq, mediaEventNames_eq,
    List.map_eq_nil_iff, List.filter_eq_nil_iff, decide_eq_true_iff, not_not]
  constructor
  · rintro ⟨⟨h1, h2⟩, h3⟩
    refine ⟨?_, h2, h3⟩
    by_cases h : m.name = ""
    · exact h
    · exact absurd h1 (by simp [mediaMarkerNames, h])
  · rintro ⟨h1, h2, h3⟩
    exact ⟨⟨by simp [mediaMarkerNames, h1], h2⟩, h3⟩

/-- Set union keeps the set duplicate-free. -/
theorem addToSet_nodup (s xs : List String) (h : s.Nodup) :
    (addToSet s xs).Nodup := by
  induction xs generalizing s with
  | nil => exact h
  | cons x rest ih =>
    rw [addToSet, List.foldl_cons]
    by_cases hx : x ∈ s
    · rw [if_pos hx]
      exact ih s h
    · rw [if_neg hx]
      refine ih (s ++ [x]) ?_
      simp [List.nodup_append, h, hx]

/-- An update whose filter matches no document leaves the store unchanged. -/
theorem applyMediaUpdate_no_match (u : MediaUpdate) (docs : List MediaDoc)
    (h : ∀ d ∈ docs, mediaFilterMatches u d = false) :
    applyMediaUpdate u docs = docs := by
  induction docs with
  | nil => rfl
  | cons d rest ih =>
    rw [applyMediaUpdate, if_neg]
    · rw [ih (fun d2 h2 => h d2 (List.mem_cons_of_mem _ h2))]
    · simp [h d (List.mem_cons_self _ _)]

/-- C8: for a non-empty, well-formed media identifier — if every
marker/tag/event name of the submission is empty, no media update is issued;
otherwise exactly one set-union update is issued; its filter requires the
media id together with the containment predicate
`media.start ≤ marker.start ≤ media.end`; a filter matching zero documents
changes nothing (and the oracle reports no error for it); and the set-union
never duplicates an existing member. -/
theorem media_linker_conditional_update (exec : StoreOp → Bool)
    (freshId : Nat) (now : Int) (m : Marker) (mediaId : String)
    (hexec : ∀ op, exec op = true) (hne : ¬ mediaId = "")
    (hvalid : isValidObjectIdHex mediaId = true) :
    ((m.name = "" ∧ (∀ t ∈ m.tags, t.name = "") ∧ (∀ e ∈ m.events, e.name = "")) →
      (AddMarkerToMongodb exec freshId now m [mediaId]).trace.filter
        isMediaUpdateOp = []) ∧
    (¬ (m.name = "" ∧ (∀ t ∈ m.tags, t.name = "") ∧ (∀ e ∈ m.events, e.name = "")) →
      (AddMarkerToMongodb exec freshId now m [mediaId]).trace.filter
        isMediaUpdateOp =
        [StoreOp.updateMedia (mkMediaUpdate { m with id := freshId } mediaId)]) ∧
    (∀ u d, mediaFilterMatches u d = true ↔
      (d.id = u.mediaObjectId ∧ d.startTimestamp ≤ u.markerStart ∧
        u.markerStart ≤ d.endTimestamp)) ∧
    (∀ u docs, (∀ d ∈ docs, mediaFilterMatches u d = false) →
      applyMediaUpdate u docs = docs) ∧
    (∀ s xs, List.Nodup s → List.Nodup (addToSet s xs)) := by
  have hids : ∀ i ∈ [mediaId], i = "" ∨ isValidObjectIdHex i = true := by
    intro i hi
    rcases List.mem_singleton.mp hi with rfl
    exact Or.inr hvalid
  refine ⟨fun h => ?_, fun h => ?_, fun u d => ?_,
    fun u docs h => applyMediaUpdate_no_match u docs h,
    fun s xs h => addToSet_nodup s xs h⟩
  · rw [addMarker_media_filter exec hexec freshId now m [mediaId] hids]
    have hempty : (mkMediaUpdate { m with id := freshId } mediaId).namesEmpty = true :=
      (mediaUpdate_namesEmpty_iff _ _).mpr ⟨h.1, h.2.1, h.2.2⟩
    simp [successMediaOps, hne, hempty]
  · rw [addMarker_media_filter exec hexec freshId now m [mediaId] hids]
    have hempty : ¬ (mkMediaUpdate { m with id := freshId } mediaId).namesEmpty = true :=
      fun hc => h ((mediaUpdate_namesEmpty_iff _ _).mp hc)
    simp [successMediaOps, hne, hempty]
  · simp [mediaFilterMatches, and_assoc]

/-- Witness for C8 at the sample marker and a well-formed identifier: the
single update is issued, and a store whose only document does not satisfy
the containment predicate is left unchanged. -/
theorem media_linker_conditional_update_witness :
    ((AddMarkerToMongodb execTrue 1 5 sampleMarker
        ["507f1f77bcf86cd799439011"]).trace.filter isMediaUpdateOp =
      [StoreOp.updateMedia (mkMediaUpdate { sampleMarker with id := 1 }
        "507f1f77bcf86cd799439011")]) ∧
    applyMediaUpdate (mkMediaUpdate { sampleMarker with id := 1 }
        "507f1f77bcf86cd799439011")
      [{ id := "507f1f77bcf86cd799439011", startTimestamp := 200
         endTimestamp := 300, markerNames := [], tagNames := []
         eventNames := [] }] =
      [{ id := "507f1f77bcf86cd799439011", startTimestamp := 200
         endTimestamp := 300, markerNames := [], tagNames := []
         eventNames := [] }] := by
  have h := media_linker_conditional_update execTrue 1 5 sampleMarker
    "507f1f77bcf86cd799439011" (fun op => rfl) (by decide) rfl
  refine ⟨h.2.1 ?_, h.2.2.2.1 _ _ ?_⟩
  · intro hc
    exact absurd hc.1 (by decide)
  · intro d hd
    rcases List.mem_singleton.mp hd with rfl
    rfl

/-! ## C9: empty identifiers skipped, first malformed identifier aborts -/

/-- An empty identifier anywhere in the list is skipped: it contributes no
store operation and no error, whatever the surrounding identifiers and the
store oracle do. -/
theorem processMediaIds_skip_empty (exec : StoreOp → Bool) (m : Marker)
    (acc : List StoreOp) (xs ys : List String) :
    processMediaIds exec m acc (xs ++ "" :: ys) =
      processMediaIds exec m acc (xs ++ ys) := by
  induction xs generalizing acc with
  | nil =>
    rw [List.nil_append, List.nil_append]
    simp [processMediaIds]
  | cons i rest ih =>
    rw [List.cons_append, List.cons_append]
    simp only [processMediaIds]
    split
    · exact ih _
    · split
      · split
        · exact ih _
        · split
          · exact ih _
          · rfl
      · rfl

/-- An empty identifier anywhere in the list leaves the whole storage run
unchanged, under any store oracle. -/
theorem addMarker_skip_empty_id (exec : StoreOp → Bool) (freshId : Nat)
    (now : Int) (m : Marker) (xs ys : List String) :
    AddMarkerToMongodb exec freshId now m (xs ++ "" :: ys) =
      AddMarkerToMongodb exec freshId now m (xs ++ ys) := by
  simp only [AddMarkerToMongodb]
  split
  · rcases herr : (runOps exec { m with id := freshId }
      [StoreOp.insertMarker { m with id := freshId }]
      (stageOps { m with id := freshId } now)).error with _ | e
    · simp only [herr]
      exact processMediaIds_skip_empty exec _ _ xs ys
    · simp only [herr]
  · rfl

/-- Under an all-success oracle, a well-formed identifier segment (empty or
parseable identifiers, in any mix) at the front of the list appends exactly
its success-path media operations, and processing continues with the rest of
the list. -/
theorem processMediaIds_append (exec : StoreOp → Bool)
    (hexec : ∀ op, exec op = true) (m : Marker) (acc : List StoreOp)
    (pre ids : List String)
    (hpre : ∀ i ∈ pre, i = "" ∨ isValidObjectIdHex i = true) :
    processMediaIds exec m acc (pre ++ ids) =
      processMediaIds exec m (acc ++ successMediaOps m pre) ids := by
  induction pre generalizing acc with
  | nil => simp [successMediaOps]
  | cons i rest ih =>
    have hrest : ∀ j ∈ rest, j = "" ∨ isValidObjectIdHex j = true :=
      fun j hj => hpre j (List.mem_cons_of_mem _ hj)
    by_cases h1 : i = ""
    · simp [processMediaIds, successMediaOps, h1, ih _ hrest]
    · have hv : isValidObjectIdHex i = true :=
        (hpre i (List.mem_cons_self _ _)).resolve_left h1
      by_cases h2 : (mkMediaUpdate m i).namesEmpty = true
      · simp [processMediaIds, successMediaOps, h1, hv, h2, ih _ hrest]
      · simp [processMediaIds, successMediaOps, h1, hv, h2, hexec,
          ih _ hrest, List.append_assoc]

/-- Under an all-success oracle, a run given a well-formed identifier prefix
followed by further identifiers continues processing those identifiers from
exactly the state (trace) the prefix-only run ends in. -/
theorem addMarker_extend_ids (exec : StoreOp → Bool)
    (hexec : ∀ op, exec op = true) (freshId : Nat) (now : Int) (m : Marker)
    (pre ids : List String)
    (hpre : ∀ i ∈ pre, i = "" ∨ isValidObjectIdHex i = true) :
    AddMarkerToMongodb exec freshId now m (pre ++ ids) =
      processMediaIds exec { m with id := freshId }
        ((AddMarkerToMongodb exec freshId now m pre).trace) ids := by
  rw [addMarker_all_success exec hexec freshId now m pre hpre]
  simp only [AddMarkerToMongodb, hexec, if_true, runOps_all_success exec hexec]
  rw [processMediaIds_append exec hexec _ _ pre ids hpre]
  simp [List.append_assoc]

/-- C9: an empty-string identifier anywhere in the list is skipped without
error (removing it changes nothing at all, under any oracle and among any
surrounding identifiers); a prefix of empty or well-formed identifiers is
processed without error; the first malformed identifier then makes the whole
call fail with the invalid-reference error; and neither it nor any later
identifier is attempted — the run's writes are exactly those of the run
given only the prefix. -/
theorem media_ids_empty_skipped_first_invalid_aborts (exec : StoreOp → Bool)
    (freshId : Nat) (now : Int) (m : Marker) (pre post : List String)
    (bad : String) (hexec : ∀ op, exec op = true)
    (hpre : ∀ i ∈ pre, i = "" ∨ isValidObjectIdHex i = true)
    (hbadne : ¬ bad = "") (hbad : isValidObjectIdHex bad = false) :
    (∀ exec2 xs ys,
      AddMarkerToMongodb exec2 freshId now m (xs ++ "" :: ys) =
        AddMarkerToMongodb exec2 freshId now m (xs ++ ys)) ∧
    (AddMarkerToMongodb exec freshId now m pre).error = none ∧
    (AddMarkerToMongodb exec freshId now m (pre ++ bad :: post)).error =
      some (MErr.invalidReference bad) ∧
    (AddMarkerToMongodb exec freshId now m (pre ++ bad :: post)).trace =
      (AddMarkerToMongodb exec freshId now m pre).trace := by
  refine ⟨fun exec2 xs ys => addMarker_skip_empty_id exec2 freshId now m xs ys,
    ?_, ?_, ?_⟩
  · rw [addMarker_all_success exec hexec freshId now m pre hpre]
  · rw [addMarker_extend_ids exec hexec freshId now m pre (bad :: post) hpre]
    simp [processMediaIds, hbadne, hbad]
  · rw [addMarker_extend_ids exec hexec freshId now m pre (bad :: post) hpre]
    simp [processMediaIds, hbadne, hbad]

/-- Witness for C9: a valid identifier and an empty one precede the first
malformed identifier; the call fails with the invalid-reference error, the
valid identifier's update is the only media write, and the well-formed later
identifier is never attempted. -/
theorem media_ids_empty_skipped_first_invalid_aborts_witness :
    ((AddMarkerToMongodb execTrue 1 5 sampleMarker
        ["507f1f77bcf86cd799439011", "", "not-an-objectid",
          "aaaaaaaaaaaaaaaaaaaaaaaa"]).error =
      some (MErr.invalidReference "not-an-objectid")) ∧
    ((AddMarkerToMongodb execTrue 1 5 sampleMarker
        ["507f1f77bcf86cd799439011", "", "not-an-objectid",
          "aaaaaaaaaaaaaaaaaaaaaaaa"]).trace =
      (AddMarkerToMongodb execTrue 1 5 sampleMarker
        ["507f1f77bcf86cd799439011", ""]).trace) ∧
    ((AddMarkerToMongodb execTrue 1 5 sampleMarker
        ["507f1f77bcf86cd799439011", ""]).error = none) := by
  have h := media_ids_empty_skipped_first_invalid_aborts execTrue 1 5
    sampleMarker ["507f1f77bcf86cd799439011", ""]
    ["aaaaaaaaaaaaaaaaaaaaaaaa"] "not-an-objectid" (fun op => rfl)
    (by
      intro i hi
      rcases List.mem_cons.mp hi with rfl | hi2
      · exact Or.inr rfl
      · rcases List.mem_singleton.mp hi2 with rfl
        exact Or.inl rfl)
    (by decide) rfl
  exact ⟨h.2.2.1, h.2.2.2, h.2.1⟩

/-! ## C5 witness -/

/-- Witness for C5 at the sample marker: the repeated tag collapses to one
upsert keyed by `(value, organisationId)`, and the marker-name upsert
carries the submission's category names. -/
theorem catalog_upserts_dedup_keys_witness :
    ((tagOptUpserts sampleMarker 5).map OptUpsert.filterValue =
      ["high-priority"]) ∧
    ((tagOptUpserts sampleMarker 5).map OptUpsert.filterValue).Nodup ∧
    ("high-priority" ∈ (tagOptUpserts sampleMarker 5).map OptUpsert.filterValue ↔
      "high-priority" ∈ sampleMarker.tags.map Tag.name ∧
        "high-priority" ≠ "") ∧
    (∀ u ∈ markerOptUpserts sampleMarker 5,
      u.categoriesEach =
        some ((sampleMarker.categories.map Category.name).filter
          (fun n => n ≠ ""))) :=
  ⟨rfl, (catalog_upserts_dedup_keys sampleMarker 5).1.1,
    (catalog_upserts_dedup_keys sampleMarker 5).1.2.1 "high-priority",
    fun u hu =>
      ((catalog_upserts_dedup_keys sampleMarker 5).2.2.2.1.2 u hu).2.2.2.2.2.2⟩

/-- Witness for the amended C7: on the sample submission with one media
identifier, the full trace has the marker insert, the seven per-kind batch
writes, and the media update — nine writes in the interleaved order. -/
theorem pipeline_write_order_witness :
    (AddMarkerToMongodb execTrue 1 5 sampleMarker
        ["507f1f77bcf86cd799439011"]).trace.length = 9 := by
  rw [pipeline_write_order 1 5 sampleMarker ["507f1f77bcf86cd799439011"]
    (by
      intro i hi
      rcases List.mem_singleton.mp hi with rfl
      exact Or.inr rfl)]
  rfl
